import Mathlib

/-!
Verification development for the book-generator repository.

The definitions below are shallow embeddings of the repository's code:
the frontend TypeScript (quality-validation report, editor store,
auto-save hook, export options) is translated directly; the backend
PDF-generation workflow is translated from the Python workflow code kept
in the repository's backend instructions document (`first_pass`,
`second_pass`, `generate_pdf`); the parts of the pagination core that the
repository documents but does not ship (template composition, the
structural validator, TOC formatting, hierarchy counters) are modelled
from the specification, and each such definition says so in its doc
comment.
-/

namespace BookGen

/-! ## Quality validation report
Embedding of `src/frontend/src/components/Export/QualityValidationDetails.tsx`. -/

/-- The status union of the TypeScript `ValidationProblem` interface:
`'passed' | 'failed' | 'pending'`. -/
inductive ValidationStatus where
| passed : ValidationStatus
| failed : ValidationStatus
| pending : ValidationStatus
deriving DecidableEq, Repr

/-- The `ValidationProblem` interface of `QualityValidationDetails.tsx`
(fields `id`, `name`, `description`, `status`, `details?`). -/
structure ValidationProblem where
  id : String
  name : String
  description : String
  status : ValidationStatus
  details : Option String
deriving DecidableEq, Repr

/-- The `QUALITY_PROBLEMS` constant of `QualityValidationDetails.tsx`:
the validation report rendered to the user, entry for entry. -/
def QUALITY_PROBLEMS : List ValidationProblem :=
  [ { id := "blank_pages"
    , name := "Pages blanches parasites"
    , description := "Détection des pages blanches non intentionnelles"
    , status := .passed
    , details := some "Aucune page blanche parasite détectée. Les pages blanches éditoriales sont préservées." }
  , { id := "text_rivers"
    , name := "Espacement entre mots"
    , description := "Vérification des \"rivières\" blanches dans le texte justifié"
    , status := .passed
    , details := some "Espacement optimal avec césure française activée." }
  , { id := "toc_sync"
    , name := "Correspondance TOC"
    , description := "Synchronisation entre sommaire et numéros de page"
    , status := .passed
    , details := some "Table des matières synchronisée avec double-passe WeasyPrint." }
  , { id := "subparts"
    , name := "Gestion sous-parties"
    , description := "Hiérarchie et page-breaks corrects"
    , status := .passed
    , details := some "Hiérarchie correcte avec compteurs CSS automatiques." }
  , { id := "horizontal_bars"
    , name := "Barres horizontales"
    , description := "Élimination des artifacts CSS"
    , status := .passed
    , details := some "Aucune barre horizontale parasite détectée." }
  , { id := "orphan_titles"
    , name := "Titres orphelins"
    , description := "Jamais de titre seul en bas de page"
    , status := .passed
    , details := some "Protection CSS activée: orphans: 4, widows: 4, page-break-after: avoid." } ]

/-- The check identifiers actually present in the produced report. -/
def qualityCheckIds : List String := QUALITY_PROBLEMS.map ValidationProblem.id

/-- The six check identifiers named by the specification. -/
def specCheckIds : List String :=
  ["blank_pages", "text_rivers", "toc_sync", "hierarchy", "rule_suppression", "orphan_titles"]

/-- The first entry of the produced report, used as a concrete sample. -/
def blankPagesEntry : ValidationProblem :=
  { id := "blank_pages"
  , name := "Pages blanches parasites"
  , description := "Détection des pages blanches non intentionnelles"
  , status := .passed
  , details := some "Aucune page blanche parasite détectée. Les pages blanches éditoriales sont préservées." }

/-! ## Editor store
Embedding of `src/frontend/src/stores/editorStore.ts`.  The JavaScript
`Map<number, string>` is embedded as an insertion-ordered association
list (`Map.set` replaces an existing key in place, else appends) and the
`Set<number>` as an insertion-ordered duplicate-free list (`Set.add`
appends a key only when absent), matching JS iteration semantics. -/

/-- `Map.get` on a JS `Map<number, string>`. -/
def mapGet : List (Nat × String) → Nat → Option String
| [], _ => none
| (k, v) :: rest, key => if k = key then some v else mapGet rest key

/-- `Map.set` on a JS `Map<number, string>`: replace in place or append. -/
def mapSet : List (Nat × String) → Nat → String → List (Nat × String)
| [], key, val => [(key, val)]
| (k, v) :: rest, key, val =>
  if k = key then (key, val) :: rest else (k, v) :: mapSet rest key val

/-- `Set.has` on a JS `Set<number>`. -/
def setHas : List Nat → Nat → Bool
| [], _ => false
| k :: rest, key => if k = key then true else setHas rest key

/-- `Set.add` on a JS `Set<number>`: append only when absent. -/
def setAdd (s : List Nat) (key : Nat) : List Nat :=
  if setHas s key then s else s ++ [key]

/-- The `Chapter` shape used by the store (`id`, `title`, `content`,
`position`; timestamps omitted as the store never reads them). -/
structure Chapter where
  id : Nat
  title : String
  content : String
  position : Nat
deriving DecidableEq, Repr

/-- The slice of `EditorState` that `updateChapterContent` can see:
`chapters`, `activeChapterId`, the `content` map and the
`unsavedChanges` set. -/
structure EditorState where
  chapters : List Chapter
  activeChapterId : Option Nat
  content : List (Nat × String)
  unsavedChanges : List Nat
deriving DecidableEq, Repr

/-- `updateChapterContent` of `editorStore.ts` (lines 148–157): copy the
content map, set the chapter's content, copy the unsaved set, add the
chapter id, and write back only `content` and `unsavedChanges`. -/
def updateChapterContent (st : EditorState) (chapterId : Nat) (c : String) : EditorState :=
  { st with
    content := mapSet st.content chapterId c
    unsavedChanges := setAdd st.unsavedChanges chapterId }

/-! ## Auto-save hook
Embedding of `src/frontend/src/hooks/useAutoSave.ts`. -/

/-- One chapter-save request issued through `chapterService.updateChapter`. -/
structure SaveRequest where
  chapterId : Nat
  content : String
deriving DecidableEq, Repr

/-- The auto-save effect of `useAutoSave.ts` (lines 41–63), as the list of
save requests it schedules: the effect returns early — scheduling no
timeout and hence no request at any later time — unless
`settings.autoSave` is on and `unsavedChanges` is non-empty; otherwise,
after the delay, it issues one request per unsaved chapter whose content
is present in the map. -/
def autoSaveRequests (autoSave : Bool) (unsavedChanges : List Nat)
    (content : List (Nat × String)) : List SaveRequest :=
  if !autoSave || unsavedChanges.isEmpty then []
  else unsavedChanges.filterMap fun cid =>
    (mapGet content cid).map fun c => { chapterId := cid, content := c }

/-! ## Two-pass PDF generation
Embedding of the backend workflow functions `first_pass`, `second_pass`
and `generate_pdf` from the repository's backend instructions document
(`Workflow de Génération PDF`).  The WeasyPrint renderer is external, so
it is a parameter `render : RenderCall → List OraclePage`; a `RenderCall`
records the HTML submitted and the stylesheet files passed alongside it
(`first_pass` calls `document.render()` with no stylesheet argument,
`second_pass` calls `write_pdf` with `/app/templates/book.css`). -/

/-- The manuscript HTML as far as the pipeline inspects it: the TOC block
(one entry per anchor, displayed page number `none` until injected) and
the body's heading anchors in document order. -/
structure Html where
  tocEntries : List (String × Option Nat)
  bodyAnchors : List String
deriving DecidableEq, Repr

/-- One page of a paginated artifact, exposing which heading anchors
(`h1`/`h2`/`h3` element ids) start on it. -/
structure OraclePage where
  anchors : List String
deriving DecidableEq, Repr

/-- One submission to the rendering oracle: the HTML string and the
stylesheet filenames passed with it. -/
structure RenderCall where
  html : Html
  stylesheets : List String
deriving DecidableEq, Repr

/-- Lookup in an anchor→page dictionary. -/
def pmGet : List (String × Nat) → String → Option Nat
| [], _ => none
| (a, n) :: rest, key => if a = key then some n else pmGet rest key

/-- Assignment in an anchor→page dictionary (`page_breaks[element.id] = page_num`):
replace in place or append. -/
def pmSet : List (String × Nat) → String → Nat → List (String × Nat)
| [], key, n => [(key, n)]
| (a, m) :: rest, key, n =>
  if a = key then (key, n) :: rest else (a, m) :: pmSet rest key n

/-- The extraction loop of `first_pass`: `for page_num, page in
enumerate(temp_pdf.pages, 1): for element in page...: page_breaks[element.id] = page_num`. -/
def extractPageBreaksAux : Nat → List (String × Nat) → List OraclePage → List (String × Nat)
| _, acc, [] => acc
| n, acc, p :: rest =>
  extractPageBreaksAux (n + 1) (p.anchors.foldl (fun a aid => pmSet a aid n) acc) rest

/-- Anchor→page map of an artifact, pages numbered from 1. -/
def extract_page_breaks (pages : List OraclePage) : List (String × Nat) :=
  extractPageBreaksAux 1 [] pages

/-- The page an anchor starts on in an artifact. -/
def pageOfAnchor (pages : List OraclePage) (anchorId : String) : Option Nat :=
  pmGet (extract_page_breaks pages) anchorId

/-- The oracle call made by `first_pass`: the bare manuscript HTML with
no stylesheet argument (`weasyprint.HTML(string=html)` then
`document.render()`). -/
def firstPassCall (html : Html) : RenderCall :=
  { html := html, stylesheets := [] }

/-- `first_pass`: render a temporary artifact and extract the
anchor→page map. -/
def first_pass (render : RenderCall → List OraclePage) (html : Html) : List (String × Nat) :=
  extract_page_breaks (render (firstPassCall html))

/-- Modelled from the spec: `inject_page_numbers` is called by
`second_pass` but its body is not in the repository; per §4.2 step 4 it
re-renders the TOC block substituting each entry's true page number from
the pass-1 map. -/
def inject_page_numbers (html : Html) (pageBreaks : List (String × Nat)) : Html :=
  { html with tocEntries := html.tocEntries.map fun e => (e.1, pmGet pageBreaks e.1) }

/-- The stylesheet file `second_pass` passes to `write_pdf`. -/
def bookStylesheet : String := "/app/templates/book.css"

/-- The oracle call made by `second_pass`: the TOC-injected HTML with
`stylesheets=[CSS(filename='/app/templates/book.css')]`. -/
def secondPassCall (html : Html) (pageBreaks : List (String × Nat)) : RenderCall :=
  { html := inject_page_numbers html pageBreaks, stylesheets := [bookStylesheet] }

/-- `second_pass`: inject the true page numbers into the TOC and render
the final artifact with the book stylesheet. -/
def second_pass (render : RenderCall → List OraclePage) (html : Html)
    (pageBreaks : List (String × Nat)) : List OraclePage :=
  render (secondPassCall html pageBreaks)

/-- `generate_pdf`: `page_map = first_pass(content); return second_pass(content, page_map)`. -/
def generate_pdf (render : RenderCall → List OraclePage) (content : Html) : List OraclePage :=
  second_pass render content (first_pass render content)

/-- Modelled from the spec: the `toc_sync` pass condition — every TOC
entry's declared page equals the anchor's actual starting page in the
finished artifact. -/
def tocSyncCheck (finishedHtml : Html) (finished : List OraclePage) : Bool :=
  finishedHtml.tocEntries.all fun e => e.2 = pageOfAnchor finished e.1

/-- A stylesheet-sensitive rendering oracle: without the book stylesheet
the single chapter heading `ch1` starts on page 1; with the book
stylesheet (whose page-break rules force a chapter to open on a fresh
right-hand page) a front page precedes it and `ch1` starts on page 2. -/
def demoRender (call : RenderCall) : List OraclePage :=
  if call.stylesheets.isEmpty then [{ anchors := ["ch1"] }]
  else [{ anchors := [] }, { anchors := ["ch1"] }]

/-- A one-chapter manuscript with an unresolved TOC entry for `ch1`. -/
def demoManuscript : Html :=
  { tocEntries := [("ch1", none)], bodyAnchors := ["ch1"] }

/-! ## Template composer
Modelled from the spec: the Template Composer of §4.3 is not shipped in
the repository (only its configuration surface, `ExportOptionsData` in
`src/frontend/src/components/Export/ExportOptions.tsx`, is).  Modules are
applied in the fixed precedence order — base modules, then the
specialization's whole-module substitutions, then user-level scalar
overrides scoped to the modules that declare themselves override-able;
structural modules are not override-able.  The registered specialization
names are the `template` union of `ExportOptionsData`:
`'roman' | 'technical' | 'academic'`. -/

/-- `toc_position` union of `ExportOptionsData`. -/
inductive TocPosition where
| beginning : TocPosition
| afterPreface : TocPosition
| custom : TocPosition
deriving DecidableEq, Repr

/-- `toc_style` union of `ExportOptionsData`. -/
inductive TocStyle where
| simple : TocStyle
| dots : TocStyle
| aligned : TocStyle
deriving DecidableEq, Repr

/-- One layout rule (property, value). -/
structure StyleRule where
  prop : String
  value : String
deriving DecidableEq, Repr

/-- A named, self-contained bundle of layout rules (§3 `StyleModule`);
`overridable` records whether the module declares its rules open to
user-level scalar overrides. -/
structure StyleModule where
  name : String
  overridable : Bool
  rules : List StyleRule
deriving DecidableEq, Repr

/-- A template: a name plus its ordered module list (§3 `Template`). -/
structure Template where
  name : String
  modules : List StyleModule
deriving DecidableEq, Repr

/-- The user-level scalar overrides of `ExportOptionsData`:
`body_font`, `title_font`, `font_size`, `line_height` (stored as a
percentage to stay in integers), `toc_position`, `toc_style`,
`toc_depth`. -/
structure UserOverrides where
  body_font : Option String
  title_font : Option String
  font_size : Option Nat
  line_height_percent : Option Nat
  toc_position : Option TocPosition
  toc_style : Option TocStyle
  toc_depth : Option Nat
deriving DecidableEq, Repr

/-- The empty override set: every scalar left at the template's value. -/
def noOverrides : UserOverrides :=
  { body_font := none, title_font := none, font_size := none
  , line_height_percent := none, toc_position := none, toc_style := none
  , toc_depth := none }

/-- Serialized name of a `TocPosition` value. -/
def tocPositionName : TocPosition → String
| .beginning => "beginning"
| .afterPreface => "after_preface"
| .custom => "custom"

/-- Serialized name of a `TocStyle` value. -/
def tocStyleName : TocStyle → String
| .simple => "simple"
| .dots => "dots"
| .aligned => "aligned"

/-- Modelled from the spec: a scalar override rewrites the value of the
matching presentation property and leaves every other property alone. -/
def overrideValue (o : UserOverrides) (prop old : String) : String :=
  if prop = "font-family" then o.body_font.getD old
  else if prop = "title-font-family" then o.title_font.getD old
  else if prop = "font-size" then (o.font_size.map (fun n => toString n ++ "pt")).getD old
  else if prop = "line-height" then (o.line_height_percent.map (fun n => toString n ++ "%")).getD old
  else if prop = "toc-position" then (o.toc_position.map tocPositionName).getD old
  else if prop = "toc-style" then (o.toc_style.map tocStyleName).getD old
  else if prop = "toc-depth" then (o.toc_depth.map toString).getD old
  else old

/-- Modelled from the spec: user overrides are narrowly scoped — they
touch only modules that declare themselves override-able. -/
def applyUserOverrides (o : UserOverrides) (m : StyleModule) : StyleModule :=
  if m.overridable then
    { m with rules := m.rules.map fun r => { r with value := overrideValue o r.prop r.value } }
  else m

/-- Modelled from the spec: whole-module substitution — a specialization
replaces a base module of the same name and leaves the rest. -/
def moduleSubstitute (repl : List StyleModule) (m : StyleModule) : StyleModule :=
  match repl.find? (fun r => r.name = m.name) with
  | some r => r
  | none => m

/-- The `roman` specialization's module replacements (classic literary
typography, per the frontend template description). -/
def romanModules : List StyleModule :=
  [ { name := "typography", overridable := true
    , rules := [ { prop := "font-family", value := "Garamond" }
               , { prop := "title-font-family", value := "Optima" }
               , { prop := "font-size", value := "11pt" }
               , { prop := "line-height", value := "140%" } ] } ]

/-- The `technical` specialization's module replacements (structured
technical layout, per the frontend template description). -/
def technicalModules : List StyleModule :=
  [ { name := "typography", overridable := true
    , rules := [ { prop := "font-family", value := "Source Sans Pro" }
               , { prop := "title-font-family", value := "Helvetica" }
               , { prop := "font-size", value := "10pt" }
               , { prop := "line-height", value := "120%" } ] } ]

/-- The `academic` specialization's module replacements (university
format, per the frontend template description). -/
def academicModules : List StyleModule :=
  [ { name := "typography", overridable := true
    , rules := [ { prop := "font-family", value := "Times New Roman" }
               , { prop := "title-font-family", value := "Arial" }
               , { prop := "font-size", value := "12pt" }
               , { prop := "line-height", value := "160%" } ] } ]

/-- The fixed registered specialization set: exactly the `template`
union of `ExportOptionsData`. -/
def findSpecialization (specializationName : String) : Option (List StyleModule) :=
  if specializationName = "roman" then some romanModules
  else if specializationName = "technical" then some technicalModules
  else if specializationName = "academic" then some academicModules
  else none

/-- The base template's six modules (§3's module names); the margin,
font and spacing modules declare themselves override-able, the
structural/correctness modules do not.  The structural rule bodies are
the ones documented in the backend instructions (`CSS_RULES`, the
`hr`-suppression block and the orphan/widow block). -/
def baseTemplate : Template :=
  { name := "base"
  , modules :=
    [ { name := "pagination", overridable := true
      , rules := [ { prop := "margin-top", value := "20mm" }
                 , { prop := "margin-bottom", value := "20mm" }
                 , { prop := "margin-inside", value := "15mm" }
                 , { prop := "margin-outside", value := "15mm" } ] }
    , { name := "typography", overridable := true
      , rules := [ { prop := "font-family", value := "Times New Roman" }
                 , { prop := "title-font-family", value := "Helvetica" }
                 , { prop := "font-size", value := "11pt" }
                 , { prop := "line-height", value := "140%" } ] }
    , { name := "toc_layout", overridable := true
      , rules := [ { prop := "toc-position", value := "beginning" }
                 , { prop := "toc-style", value := "dots" }
                 , { prop := "toc-depth", value := "2" } ] }
    , { name := "hierarchy_numbering", overridable := false
      , rules := [ { prop := "h2-counter-increment", value := "section-counter" }
                 , { prop := "h3-counter-increment", value := "subsection-counter" } ] }
    , { name := "blank_page_handling", overridable := false
      , rules := [ { prop := "chapter-end-page-break-after", value := "right" }
                 , { prop := "part-separator-page-break-before", value := "right" } ] }
    , { name := "rule_suppression", overridable := false
      , rules := [ { prop := "hr-display", value := "none" }
                 , { prop := "chapter-separator-border", value := "none" } ] }
    , { name := "widow_orphan_protection", overridable := false
      , rules := [ { prop := "orphans", value := "3" }
                 , { prop := "widows", value := "3" }
                 , { prop := "heading-page-break-after", value := "avoid" } ] } ] }

/-- Composition failures of the §4.3 contract. -/
inductive ComposeError where
| unknownSpecialization (specializationName : String)
| unknownModuleOverride (moduleName : String)
deriving DecidableEq, Repr

/-- Modelled from the spec: `compose(base_template, specialization_name,
overrides)` — fail on an unregistered specialization name or on a
specialization module that substitutes no base module, else apply base
modules, then whole-module substitution, then user scalar overrides. -/
def compose (base : Template) (specializationName : String) (o : UserOverrides) :
    Except ComposeError (List StyleModule) :=
  match findSpecialization specializationName with
  | none => .error (.unknownSpecialization specializationName)
  | some repl =>
    match repl.find? (fun r => base.modules.all fun m => m.name ≠ r.name) with
    | some r => .error (.unknownModuleOverride r.name)
    | none => .ok ((base.modules.map (moduleSubstitute repl)).map (applyUserOverrides o))

/-- Minified serialization of a rule. -/
def serializeRule (r : StyleRule) : String := r.prop ++ ":" ++ r.value ++ ";"

/-- Minified serialization of a module. -/
def serializeModule (m : StyleModule) : String :=
  m.name ++ "\x7b" ++ String.join (m.rules.map serializeRule) ++ "\x7d"

/-- Minified, stably ordered serialization of a composed ruleset — the
byte output of composition. -/
def serializeStylesheet (ms : List StyleModule) : String :=
  String.join (ms.map serializeModule)

/-- The structural/correctness module names the spec singles out as not
user-overridable. -/
def structuralModuleNames : List String :=
  ["widow_orphan_protection", "blank_page_handling", "rule_suppression"]

/-- The structural/correctness slice of a composed ruleset. -/
def structuralPart (ms : List StyleModule) : List StyleModule :=
  ms.filter fun m => structuralModuleNames.contains m.name

/-! ## TOC formatting
Modelled from the spec: §4.2 step 4 — the TOC re-render substitutes each
entry's true page number, formatted per the configured `toc_style`
(`simple`: title only; `dots`: title + leader dots + number; `aligned`:
number right-flush) and filtered to the configured `toc_depth` (only
headings with `level <= configured_depth` appear).  The style and depth
unions come from `ExportOptionsData`. -/

/-- A heading of the document model: stable anchor, display title,
hierarchy level. -/
structure Heading where
  anchor : String
  title : String
  level : Nat
deriving DecidableEq, Repr

/-- The leader-dot run between title and page number in the `dots` style. -/
def leaderDots : String := " . . . . . "

/-- Width of a TOC line in the `aligned` style; the page number is
pushed right-flush to this column. -/
def tocLineWidth : Nat := 80

/-- The space padding that right-flushes a page number. -/
def alignPad (title : String) (page : Nat) : String :=
  String.mk (List.replicate (tocLineWidth - (title.length + (toString page).length)) ' ')

/-- One rendered TOC line in the configured style. -/
def formatTocLine (style : TocStyle) (title : String) (page : Nat) : String :=
  match style with
  | .simple => title
  | .dots => title ++ leaderDots ++ toString page
  | .aligned => title ++ alignPad title page ++ toString page

/-- The TOC content block re-rendered with true page numbers: walk the
headings in document order, keep those within the configured depth,
format each with its resolved page. -/
def renderToc (style : TocStyle) (depth : Nat) (pageOf : String → Nat) :
    List Heading → List String
| [] => []
| h :: rest =>
  if h.level ≤ depth then
    formatTocLine style h.title (pageOf h.anchor) :: renderToc style depth pageOf rest
  else renderToc style depth pageOf rest

/-! ## Hierarchy counters
Modelled from the spec: the full CSS template carrying the counter rules
is not shipped (the backend instructions show only an illustrative
fragment), so the counters follow the spec's rule — a level-`n` counter
resets whenever a heading of a lower level occurs before it and
increments by exactly 1 otherwise — for the three heading levels the
pipeline recognizes. -/

/-- The three counters backing `h1`/`h2`/`h3` numbering. -/
structure HierarchyCounters where
  chapterCount : Nat
  sectionCount : Nat
  subsectionCount : Nat
deriving DecidableEq, Repr

/-- Counter update at one heading: a level-1 heading bumps the chapter
counter and resets both deeper counters; a level-2 heading bumps the
section counter and resets the subsection counter; a level-3 heading
bumps the subsection counter. -/
def stepCounter (cs : HierarchyCounters) (level : Nat) : HierarchyCounters :=
  if level = 1 then { chapterCount := cs.chapterCount + 1, sectionCount := 0, subsectionCount := 0 }
  else if level = 2 then { cs with sectionCount := cs.sectionCount + 1, subsectionCount := 0 }
  else { cs with subsectionCount := cs.subsectionCount + 1 }

/-- The displayed number of a heading: the counters down to its level. -/
def counterLabel (cs : HierarchyCounters) (level : Nat) : List Nat :=
  if level = 1 then [cs.chapterCount]
  else if level = 2 then [cs.chapterCount, cs.sectionCount]
  else [cs.chapterCount, cs.sectionCount, cs.subsectionCount]

/-- Numbers displayed for a heading sequence, starting from counters
`cs`. -/
def hierarchyLabelsFrom (cs : HierarchyCounters) : List Nat → List (List Nat)
| [] => []
| l :: rest => counterLabel (stepCounter cs l) l :: hierarchyLabelsFrom (stepCounter cs l) rest

/-- Numbers displayed for a heading sequence, all counters starting at 0. -/
def hierarchyLabels (levels : List Nat) : List (List Nat) :=
  hierarchyLabelsFrom { chapterCount := 0, sectionCount := 0, subsectionCount := 0 } levels

/-! ## Blank-page accounting
Modelled from the spec: the structural validator is not shipped.  A
manuscript is a block sequence (body text and the structural markers of
§3); pagination flows text into the current page, and a structural
marker — whose rendered form (`page-break-after: right` per the
documented `CSS_RULES`, or the `<!-- PAGE_BLANCHE_EDITORIALE -->`
comment a blank-page chapter carries) ends the current page and emits
one deliberately empty page after it.  The `blank_pages` check is the
§4.4 pass condition: every visually empty page immediately follows a
page carrying a structural marker. -/

/-- The structural marker kinds of §3. -/
inductive MarkerKind where
| editorialBlank : MarkerKind
| partSeparator : MarkerKind
| chapterEnd : MarkerKind
deriving DecidableEq, Repr

/-- A manuscript block: body text or a structural marker. -/
inductive Block where
| text (s : String) : Block
| marker (k : MarkerKind) : Block
deriving DecidableEq, Repr

/-- Whether a block is a structural marker. -/
def Block.isMarker : Block → Bool
| .marker _ => true
| .text _ => false

/-- Whether a block produces visible output: body text does unless it is
empty; a marker renders nothing visible (an HTML comment or a pure
page-break rule). -/
def Block.isVisible : Block → Bool
| .text s => !(s = "")
| .marker _ => false

/-- One page of the rendered document, carrying the blocks laid on it. -/
structure RenderedPage where
  blocks : List Block
deriving DecidableEq, Repr

/-- A page is visually empty when none of its blocks produces visible
output. -/
def isVisuallyEmptyPage (p : RenderedPage) : Bool :=
  p.blocks.all fun b => !b.isVisible

/-- A page carries a marker when one of its blocks is a structural
marker. -/
def pageHasMarker (p : RenderedPage) : Bool :=
  p.blocks.any Block.isMarker

/-- Pagination: text flows into the current page (splitting overlong
text across pages never creates an empty page, so it is irrelevant to
blank-page accounting and elided); a marker lands on the current page,
closes it, and emits one deliberately empty page after it. -/
def paginate : List Block → List Block → List RenderedPage
| cur, [] => if cur.isEmpty then [] else [{ blocks := cur.reverse }]
| cur, .text s :: rest => paginate (.text s :: cur) rest
| cur, .marker k :: rest =>
  { blocks := (Block.marker k :: cur).reverse } :: { blocks := [] } :: paginate [] rest

/-- The rendered page sequence of a manuscript. -/
def renderPages (ms : List Block) : List RenderedPage :=
  paginate [] ms

/-- Tail of the `blank_pages` check, carrying the previous page. -/
def blankPagesCheckFrom (prev : RenderedPage) : List RenderedPage → Bool
| [] => true
| p :: rest => (!(isVisuallyEmptyPage p) || pageHasMarker prev) && blankPagesCheckFrom p rest

/-- The `blank_pages` check of §4.4: every visually empty page
immediately follows a page carrying a structural marker (a visually
empty first page has no such predecessor and fails). -/
def blankPagesCheck : List RenderedPage → Bool
| [] => true
| p :: rest => !(isVisuallyEmptyPage p) && blankPagesCheckFrom p rest

/-- Number of visually empty pages of a rendered document. -/
def countEmptyPages (pages : List RenderedPage) : Nat :=
  (pages.filter isVisuallyEmptyPage).length

/-! ## Helper lemmas -/

/-- Setting a key makes it readable back. -/
theorem mapGet_mapSet_self (m : List (Nat × String)) (k : Nat) (v : String) :
    mapGet (mapSet m k v) k = some v := by
  induction m with
  | nil => simp [mapSet, mapGet]
  | cons p rest ih =>
    by_cases h : p.1 = k
    · simp [mapSet, mapGet, h]
    · simp [mapSet, mapGet, h, ih]

/-- Setting a key leaves every other key's value unchanged. -/
theorem mapGet_mapSet_ne (m : List (Nat × String)) (k j : Nat) (v : String)
    (hjk : j ≠ k) : mapGet (mapSet m k v) j = mapGet m j := by
  induction m with
  | nil => simp [mapSet, mapGet, Ne.symm hjk]
  | cons p rest ih =>
    by_cases h : p.1 = k
    · simp [mapSet, mapGet, h, Ne.symm hjk]
    · simp [mapSet, mapGet, h, ih]

/-- Appending a key to a JS set makes membership hold. -/
theorem setHas_append_self (s : List Nat) (k : Nat) : setHas (s ++ [k]) k = true := by
  induction s with
  | nil => simp [setHas]
  | cons a rest ih =>
    by_cases ha : a = k
    · simp [setHas, ha]
    · simp [setHas, ha, ih]

/-- Appending a key to a JS set leaves other keys' membership unchanged. -/
theorem setHas_append_ne (s : List Nat) (k j : Nat) (hjk : j ≠ k) :
    setHas (s ++ [k]) j = setHas s j := by
  induction s with
  | nil => simp [setHas, Ne.symm hjk]
  | cons a rest ih => simp [setHas, ih]

/-- Adding a key makes membership hold. -/
theorem setHas_setAdd_self (s : List Nat) (k : Nat) : setHas (setAdd s k) k = true := by
  unfold setAdd
  by_cases h : setHas s k = true
  · simp [h]
  · simp [h, setHas_append_self]

/-- Adding a key leaves every other key's membership unchanged. -/
theorem setHas_setAdd_ne (s : List Nat) (k j : Nat) (hjk : j ≠ k) :
    setHas (setAdd s k) j = setHas s j := by
  unfold setAdd
  by_cases h : setHas s k = true
  · simp [h]
  · simp [h, setHas_append_ne s k j hjk]

/-! ## Claim theorems -/

/-- C1 (counterexample): the claim's closed six-id set names `hierarchy`
and `rule_suppression`, but the produced report contains neither — it
uses `subparts` and `horizontal_bars` instead — so the report's check-id
set does not equal the claimed set. -/
theorem c1_check_ids_counterexample :
    "hierarchy" ∈ specCheckIds ∧ "hierarchy" ∉ qualityCheckIds ∧
    "subparts" ∈ qualityCheckIds ∧ "subparts" ∉ specCheckIds := by
  decide

/-- C1 (amended): for every validation run, the report's check ids are
exactly the six fixed identifiers `blank_pages`, `text_rivers`,
`toc_sync`, `subparts`, `horizontal_bars`, `orphan_titles`, each
occurring once. -/
theorem c1_check_ids_amended :
    qualityCheckIds =
      ["blank_pages", "text_rivers", "toc_sync", "subparts", "horizontal_bars", "orphan_titles"] ∧
    qualityCheckIds.Nodup := by
  decide

/-- C8: every entry of the produced validation report carries status
`passed` or `failed`; no entry carries the third status value. -/
theorem c8_status_two_valued :
    ∀ p ∈ QUALITY_PROBLEMS,
      p.status = ValidationStatus.passed ∨ p.status = ValidationStatus.failed := by
  decide

/-- C8 witness: the `blank_pages` entry is in the report and its status
is `passed` or `failed`. -/
theorem c8_status_two_valued_witness :
    blankPagesEntry ∈ QUALITY_PROBLEMS ∧
    (blankPagesEntry.status = ValidationStatus.passed ∨
      blankPagesEntry.status = ValidationStatus.failed) :=
  ⟨by decide, c8_status_two_valued blankPagesEntry (by decide)⟩

/-- C9: `updateChapterContent id c` stores `c` as the content of chapter
`id` and adds `id` to the unsaved-changes set, while the content and
unsaved status of every other chapter `j`, the chapters list and the
active chapter id are unchanged. -/
theorem c9_updateChapterContent_frame (st : EditorState) (cid : Nat) (c : String)
    (j : Nat) (hj : j ≠ cid) :
    mapGet (updateChapterContent st cid c).content cid = some c ∧
    setHas (updateChapterContent st cid c).unsavedChanges cid = true ∧
    mapGet (updateChapterContent st cid c).content j = mapGet st.content j ∧
    setHas (updateChapterContent st cid c).unsavedChanges j = setHas st.unsavedChanges j ∧
    (updateChapterContent st cid c).chapters = st.chapters ∧
    (updateChapterContent st cid c).activeChapterId = st.activeChapterId := by
  refine ⟨?_, ?_, ?_, ?_, rfl, rfl⟩
  · exact mapGet_mapSet_self st.content cid c
  · exact setHas_setAdd_self st.unsavedChanges cid
  · exact mapGet_mapSet_ne st.content cid j c hj
  · exact setHas_setAdd_ne st.unsavedChanges cid j hj

/-- C9 witness: the frame property instantiated at a concrete store with
two chapters, editing chapter 1 and observing chapter 2. -/
theorem c9_updateChapterContent_frame_witness :
    (2 : Nat) ≠ 1 ∧
    (mapGet (updateChapterContent
        { chapters := [{ id := 1, title := "Un", content := "a", position := 1 }]
        , activeChapterId := some 1
        , content := [(1, "a"), (2, "b")]
        , unsavedChanges := [] } 1 "x").content 1 = some "x" ∧
      setHas (updateChapterContent
        { chapters := [{ id := 1, title := "Un", content := "a", position := 1 }]
        , activeChapterId := some 1
        , content := [(1, "a"), (2, "b")]
        , unsavedChanges := [] } 1 "x").unsavedChanges 1 = true ∧
      mapGet (updateChapterContent
        { chapters := [{ id := 1, title := "Un", content := "a", position := 1 }]
        , activeChapterId := some 1
        , content := [(1, "a"), (2, "b")]
        , unsavedChanges := [] } 1 "x").content 2 =
        mapGet [(1, "a"), (2, "b")] 2 ∧
      setHas (updateChapterContent
        { chapters := [{ id := 1, title := "Un", content := "a", position := 1 }]
        , activeChapterId := some 1
        , content := [(1, "a"), (2, "b")]
        , unsavedChanges := [] } 1 "x").unsavedChanges 2 = setHas [] 2 ∧
      (updateChapterContent
        { chapters := [{ id := 1, title := "Un", content := "a", position := 1 }]
        , activeChapterId := some 1
        , content := [(1, "a"), (2, "b")]
        , unsavedChanges := [] } 1 "x").chapters =
        [{ id := 1, title := "Un", content := "a", position := 1 }] ∧
      (updateChapterContent
        { chapters := [{ id := 1, title := "Un", content := "a", position := 1 }]
        , activeChapterId := some 1
        , content := [(1, "a"), (2, "b")]
        , unsavedChanges := [] } 1 "x").activeChapterId = some 1) :=
  ⟨by decide, c9_updateChapterContent_frame _ 1 "x" 2 (by decide)⟩

/-- C10: whenever auto-save is disabled in the settings or the
unsaved-changes set is empty, the auto-save effect issues no save
request. -/
theorem c10_autoSave_idle (autoSave : Bool) (unsaved : List Nat)
    (content : List (Nat × String)) (h : autoSave = false ∨ unsaved = []) :
    autoSaveRequests autoSave unsaved content = [] := by
  rcases h with h | h
  · subst h; simp [autoSaveRequests]
  · subst h; simp [autoSaveRequests]

/-- C10 witness: with auto-save off and one unsaved chapter whose
content is present, no request is issued. -/
theorem c10_autoSave_idle_witness :
    ((false : Bool) = false ∨ ([1] : List Nat) = []) ∧
    autoSaveRequests false [1] [(1, "a")] = [] :=
  ⟨Or.inl rfl, c10_autoSave_idle false [1] [(1, "a")] (Or.inl rfl)⟩

/-- C7: for headings at levels 1, 2, 1, 2, 2, 3 in document order, the
hierarchy counters display 1, 1.1, 2, 2.1, 2.2, 2.2.1 in that order. -/
theorem c7_hierarchy_example :
    hierarchyLabels [1, 2, 1, 2, 2, 3] = [[1], [1, 1], [2], [2, 1], [2, 2], [2, 2, 1]] := by
  decide

/-- C3: stylesheet composition is a pure function of the triple
`(base, specialization, overrides)` — runs on equal inputs produce
byte-identical serialized output. -/
theorem c3_compose_deterministic (b1 b2 : Template) (s1 s2 : String)
    (o1 o2 : UserOverrides) (hb : b1 = b2) (hs : s1 = s2) (ho : o1 = o2) :
    (compose b1 s1 o1).map serializeStylesheet =
      (compose b2 s2 o2).map serializeStylesheet := by
  subst hb; subst hs; subst ho; rfl

/-- C3 witness: two composition runs on the concrete base template,
`roman` specialization and empty overrides give byte-identical output. -/
theorem c3_compose_deterministic_witness :
    (baseTemplate = baseTemplate ∧ "roman" = "roman" ∧ noOverrides = noOverrides) ∧
    (compose baseTemplate "roman" noOverrides).map serializeStylesheet =
      (compose baseTemplate "roman" noOverrides).map serializeStylesheet :=
  ⟨⟨rfl, rfl, rfl⟩,
    c3_compose_deterministic baseTemplate baseTemplate "roman" "roman"
      noOverrides noOverrides rfl rfl rfl⟩

/-- C2 (bug demonstration): `generate_pdf` does return the pass-2
artifact, but the two oracle calls do not use the same stylesheet —
pass 1 renders with no stylesheet while pass 2 applies the book
stylesheet.  Against a stylesheet-sensitive oracle the pass-1 page map
is therefore stale: the finished TOC declares page 1 for `ch1` while
`ch1` actually starts on page 2 of the finished artifact, so `toc_sync`
fails on the deliverable. -/
theorem c2_pass1_stylesheet_mismatch :
    (firstPassCall demoManuscript).stylesheets = [] ∧
    (secondPassCall demoManuscript (first_pass demoRender demoManuscript)).stylesheets =
      [bookStylesheet] ∧
    generate_pdf demoRender demoManuscript =
      second_pass demoRender demoManuscript (first_pass demoRender demoManuscript) ∧
    (inject_page_numbers demoManuscript (first_pass demoRender demoManuscript)).tocEntries =
      [("ch1", some 1)] ∧
    pageOfAnchor (generate_pdf demoRender demoManuscript) "ch1" = some 2 ∧
    tocSyncCheck (inject_page_numbers demoManuscript (first_pass demoRender demoManuscript))
      (generate_pdf demoRender demoManuscript) = false := by
  decide

/-- User overrides never change a module's name. -/
theorem applyUserOverrides_name (o : UserOverrides) (m : StyleModule) :
    (applyUserOverrides o m).name = m.name := by
  unfold applyUserOverrides; split <;> rfl

/-- On a module list whose structurally named modules are all marked
non-override-able, applying user overrides leaves the structural slice
untouched. -/
theorem structuralPart_map_override (o : UserOverrides) (ms : List StyleModule)
    (h : ∀ m ∈ ms, structuralModuleNames.contains m.name = true → m.overridable = false) :
    structuralPart (ms.map (applyUserOverrides o)) = structuralPart ms := by
  induction ms with
  | nil => rfl
  | cons m rest ih =>
    have htail := ih fun m' hm' => h m' (List.mem_cons_of_mem m hm')
    by_cases hm : structuralModuleNames.contains m.name = true
    · have hov : m.overridable = false := h m (List.mem_cons_self m rest) hm
      have hfix : applyUserOverrides o m = m := by
        unfold applyUserOverrides
        rw [hov]
        simp
      simp only [List.map_cons, hfix]
      unfold structuralPart at htail ⊢
      simp at hm htail
      simp [List.filter_cons, hm, htail]
    · have hmf : structuralModuleNames.contains m.name = false :=
        Bool.not_eq_true _ |>.mp hm
      have hm' : structuralModuleNames.contains (applyUserOverrides o m).name = false := by
        rw [applyUserOverrides_name]
        exact hmf
      simp only [List.map_cons]
      unfold structuralPart at htail ⊢
      simp at hm' hmf htail
      simp [List.filter_cons, hm', hmf, htail]

/-- C6: composing the base template under any user-override set yields
the same structural/correctness modules (widow/orphan protection,
blank-page handling, rule suppression) as composing with no overrides —
user overrides cannot weaken them. -/
theorem c6_structural_frame (specializationName : String) (o : UserOverrides) :
    (compose baseTemplate specializationName o).map structuralPart =
      (compose baseTemplate specializationName noOverrides).map structuralPart := by
  by_cases h1 : specializationName = "roman"
  · subst h1
    have e : ∀ o' : UserOverrides, compose baseTemplate "roman" o' =
        .ok ((baseTemplate.modules.map (moduleSubstitute romanModules)).map
          (applyUserOverrides o')) := fun _ => rfl
    rw [e o, e noOverrides]
    simp only [Except.map]
    rw [structuralPart_map_override o _ (by decide),
      structuralPart_map_override noOverrides _ (by decide)]
  by_cases h2 : specializationName = "technical"
  · subst h2
    have e : ∀ o' : UserOverrides, compose baseTemplate "technical" o' =
        .ok ((baseTemplate.modules.map (moduleSubstitute technicalModules)).map
          (applyUserOverrides o')) := fun _ => rfl
    rw [e o, e noOverrides]
    simp only [Except.map]
    rw [structuralPart_map_override o _ (by decide),
      structuralPart_map_override noOverrides _ (by decide)]
  by_cases h3 : specializationName = "academic"
  · subst h3
    have e : ∀ o' : UserOverrides, compose baseTemplate "academic" o' =
        .ok ((baseTemplate.modules.map (moduleSubstitute academicModules)).map
          (applyUserOverrides o')) := fun _ => rfl
    rw [e o, e noOverrides]
    simp only [Except.map]
    rw [structuralPart_map_override o _ (by decide),
      structuralPart_map_override noOverrides _ (by decide)]
  have e : findSpecialization specializationName = none := by
    unfold findSpecialization
    rw [if_neg h1, if_neg h2, if_neg h3]
  unfold compose
  rw [e]

/-- Length of the right-flush padding. -/
theorem alignPad_length (t : String) (p : Nat) :
    (alignPad t p).length = tocLineWidth - (t.length + (toString p).length) := by
  show (List.replicate (tocLineWidth - (t.length + (toString p).length)) ' ').length = _
  rw [List.length_replicate]

/-- C5: the rendered TOC contains exactly the headings whose level is at
most the configured depth (depth ranging over 1, 2, 3), each formatted
per the configured style — `simple` renders the title only, `dots`
renders title, leader dots and page number, `aligned` renders the page
number right-flush at the line width. -/
theorem c5_toc_style_depth (style : TocStyle) (depth : Nat) (pageOf : String → Nat)
    (hs : List Heading) (_hdepth : depth = 1 ∨ depth = 2 ∨ depth = 3) :
    renderToc style depth pageOf hs =
      (hs.filter fun h => decide (h.level ≤ depth)).map
        (fun h => formatTocLine style h.title (pageOf h.anchor)) ∧
    (∀ t p, formatTocLine TocStyle.simple t p = t) ∧
    (∀ t p, formatTocLine TocStyle.dots t p = t ++ leaderDots ++ toString p) ∧
    (∀ t p, formatTocLine TocStyle.aligned t p = t ++ alignPad t p ++ toString p) ∧
    (∀ t p, t.length + (toString p).length ≤ tocLineWidth →
      (formatTocLine TocStyle.aligned t p).length = tocLineWidth) := by
  refine ⟨?_, fun t p => rfl, fun t p => rfl, fun t p => rfl, ?_⟩
  · induction hs with
    | nil => rfl
    | cons h rest ih =>
      by_cases hl : h.level ≤ depth
      · simp [renderToc, List.filter_cons, hl, ih]
      · simp [renderToc, List.filter_cons, hl, ih]
  · intro t p hle
    show (t ++ alignPad t p ++ toString p).length = tocLineWidth
    rw [String.length_append, String.length_append, alignPad_length]
    omega

/-- C5 witness: depth 1 with a level-1 and a level-2 heading keeps
exactly the level-1 heading, rendered in the `dots` style. -/
theorem c5_toc_style_depth_witness :
    ((1 : Nat) = 1 ∨ (1 : Nat) = 2 ∨ (1 : Nat) = 3) ∧
    renderToc TocStyle.dots 1 (fun _ => 3)
        [ { anchor := "c1", title := "A", level := 1 }
        , { anchor := "s1", title := "B", level := 2 } ] =
      ((([ { anchor := "c1", title := "A", level := 1 }
         , { anchor := "s1", title := "B", level := 2 } ] : List Heading).filter
          fun h => decide (h.level ≤ 1)).map
        (fun h => formatTocLine TocStyle.dots h.title ((fun _ => 3) h.anchor))) :=
  ⟨Or.inl rfl,
    (c5_toc_style_depth TocStyle.dots 1 (fun _ => 3)
      [ { anchor := "c1", title := "A", level := 1 }
      , { anchor := "s1", title := "B", level := 2 } ] (Or.inl rfl)).1⟩

/-- Marker-free text flows into the current page: paginating past it
only moves it onto the accumulator. -/
theorem paginate_text_flow (pre : List Block) : ∀ (cur rest : List Block),
    (∀ b ∈ pre, b.isMarker = false) →
    paginate cur (pre ++ rest) = paginate (pre.reverse ++ cur) rest := by
  induction pre with
  | nil => intro cur rest _; simp
  | cons b pre' ih =>
    intro cur rest h
    cases b with
    | marker k =>
      have := h (Block.marker k) (List.mem_cons_self _ _)
      simp [Block.isMarker] at this
    | text s =>
      have hstep : paginate cur ((Block.text s :: pre') ++ rest) =
          paginate (Block.text s :: cur) (pre' ++ rest) := rfl
      rw [hstep, ih (Block.text s :: cur) rest
        (fun b hb => h b (List.mem_cons_of_mem _ hb))]
      simp [List.append_assoc]

/-- A page containing a visible block is not visually empty. -/
theorem page_not_empty (bs : List Block) (b : Block) (hb : b ∈ bs)
    (hv : b.isVisible = true) : isVisuallyEmptyPage { blocks := bs } = false := by
  cases hall : isVisuallyEmptyPage { blocks := bs } with
  | false => rfl
  | true =>
    have := List.all_eq_true.mp hall b hb
    rw [hv] at this
    exact absurd this (by decide)

/-- A page containing a marker block carries a marker. -/
theorem page_has_marker (bs : List Block) (b : Block) (hb : b ∈ bs)
    (hm : b.isMarker = true) : pageHasMarker { blocks := bs } = true := by
  unfold pageHasMarker
  rw [List.any_eq_true]
  exact ⟨b, hb, hm⟩

/-- C4: a manuscript with exactly one `editorial_blank` marker, visible
content before it and no other empty-triggering content (no empty text
blocks after it, no other markers) renders so that the `blank_pages`
check passes and exactly one visually empty page exists — the check
places it immediately after the page carrying the marker. -/
theorem c4_blank_pages_one_marker (ms pre post : List Block)
    (hsplit : ms = pre ++ Block.marker MarkerKind.editorialBlank :: post)
    (hpre : ∀ b ∈ pre, b.isMarker = false)
    (hpost : ∀ b ∈ post, b.isMarker = false)
    (hvis : ∃ b ∈ pre, b.isVisible = true)
    (hpostvis : post = [] ∨ ∃ b ∈ post, b.isVisible = true) :
    blankPagesCheck (renderPages ms) = true ∧ countEmptyPages (renderPages ms) = 1 := by
  subst hsplit
  obtain ⟨bv, hbv, hbvv⟩ := hvis
  have hpages : renderPages (pre ++ Block.marker MarkerKind.editorialBlank :: post) =
      { blocks := pre ++ [Block.marker MarkerKind.editorialBlank] } ::
        { blocks := [] } :: paginate [] post := by
    unfold renderPages
    rw [paginate_text_flow pre [] (Block.marker MarkerKind.editorialBlank :: post) hpre]
    simp [paginate]
  have hmarkerPage : pageHasMarker
      { blocks := pre ++ [Block.marker MarkerKind.editorialBlank] } = true :=
    page_has_marker (pre ++ [Block.marker MarkerKind.editorialBlank])
      (Block.marker MarkerKind.editorialBlank) (by simp) rfl
  have hp1 : isVisuallyEmptyPage
      { blocks := pre ++ [Block.marker MarkerKind.editorialBlank] } = false :=
    page_not_empty (pre ++ [Block.marker MarkerKind.editorialBlank]) bv
      (List.mem_append_left _ hbv) hbvv
  have hp2 : isVisuallyEmptyPage ({ blocks := [] } : RenderedPage) = true := rfl
  rcases hpostvis with hpe | ⟨bw, hbw, hbww⟩
  · subst hpe
    rw [hpages]
    simp [paginate, blankPagesCheck, blankPagesCheckFrom, countEmptyPages,
      List.filter, hp1, hp2, hmarkerPage]
  · have hpostpages : paginate [] post = [{ blocks := post }] := by
      have := paginate_text_flow post [] [] hpost
      simp at this
      rw [this]
      cases hps : post with
      | nil => subst hps; simp at hbw
      | cons x xs =>
        subst hps
        simp [paginate]
    have hp3 : isVisuallyEmptyPage { blocks := post } = false :=
      page_not_empty post bw hbw hbww
    rw [hpages, hpostpages]
    simp [blankPagesCheck, blankPagesCheckFrom, countEmptyPages,
      List.filter, hp1, hp2, hp3, hmarkerPage]

/-- C4 witness: the manuscript "one text page, one editorial blank
marker, one text page" passes the check with exactly one empty page. -/
theorem c4_blank_pages_one_marker_witness :
    (([Block.text "Chapitre 1", Block.marker MarkerKind.editorialBlank,
        Block.text "Chapitre 2"] : List Block) =
      [Block.text "Chapitre 1"] ++
        Block.marker MarkerKind.editorialBlank :: [Block.text "Chapitre 2"]) ∧
    blankPagesCheck (renderPages
      [Block.text "Chapitre 1", Block.marker MarkerKind.editorialBlank,
        Block.text "Chapitre 2"]) = true ∧
    countEmptyPages (renderPages
      [Block.text "Chapitre 1", Block.marker MarkerKind.editorialBlank,
        Block.text "Chapitre 2"]) = 1 :=
  ⟨rfl,
    c4_blank_pages_one_marker _ [Block.text "Chapitre 1"] [Block.text "Chapitre 2"]
      rfl (by decide) (by decide) (by decide) (Or.inr (by decide))⟩

end BookGen
